import Mathlib

/-!
# Verification development for the redis-server listener stub

The embedded sources are `src/RedisServer.cpp` (constructor, `shutdown`, `run`) and
`src/main.cpp` (`main`).

Modelling conventions.

* The header `include/RedisServer.h` is not part of the source tree.  The three data members
  are read off the constructor's initialiser list `port(port), server_socket(-1), running(true)`
  and their uses: `port` and `server_socket` are C `int`s, `running` is a `bool`.
* C `int` values are represented by `Int`.  No arithmetic is performed on them; the only
  conversion is the implicit `int -> u_short` at `htons(port)`, which is reduction modulo `2^16`.
* The operating system is represented by the results its calls return (`SockResults`) and by
  the ordered log of observable events (`World.events`): socket API calls with their arguments,
  insertions into `std::cout` and insertions into `std::cerr`.
* The file-level `static RedisServer* globalServer` is the field `World.globalServer`.
-/

namespace Redis

/-! ## Winsock constants and helpers (from `winsock2.h`) -/

def AF_INET : Int := 2
def SOCK_STREAM : Int := 1
def SOL_SOCKET : Int := 65535
def SO_REUSEADDR : Int := 4
def INADDR_ANY : Nat := 0

/-- Implicit conversion of a C `int` to `u_short`: reduction modulo `2^16`. -/
def to_u_short (p : Int) : Nat := (p % 65536).toNat

/-- Host-to-network byte order for a 16-bit value on a little-endian host: the two bytes
are exchanged. -/
def htons (x : Nat) : Nat := (x % 256) * 256 + (x / 256) % 256

/-- Network-to-host byte order for a 16-bit value on a little-endian host. -/
def ntohs (x : Nat) : Nat := (x % 256) * 256 + (x / 256) % 256

/-! ## Observable events -/

/-- Names of the socket API entry points. -/
inductive CallKind
  | socket | setsockopt | bind | listen | accept | recv | send | closesocket
  deriving DecidableEq, Repr

/-- One socket API call together with the arguments it was given. -/
inductive Call
  | socket (af ty protocol : Int)
  | setsockopt (s level optname optval optlen : Int)
  | bind (s sin_family : Int) (sin_port s_addr : Nat) (namelen : Int)
  | listen (s backlog : Int)
  | accept (s : Int)
  | recv (s : Int)
  | send (s : Int)
  | closesocket (s : Int)
  deriving DecidableEq, Repr

def Call.kind : Call → CallKind
  | .socket _ _ _ => .socket
  | .setsockopt _ _ _ _ _ => .setsockopt
  | .bind _ _ _ _ _ => .bind
  | .listen _ _ => .listen
  | .accept _ => .accept
  | .recv _ => .recv
  | .send _ => .send
  | .closesocket _ => .closesocket

/-- One observable step: a socket API call, one `<<` insertion into `std::cout` (of a string
or of an `int`), or one `<<` insertion of a string into `std::cerr`. -/
inductive Event
  | sys (c : Call)
  | cout_str (s : String)
  | cout_int (n : Int)
  | cerr_str (s : String)
  deriving DecidableEq, Repr

/-- Socket API calls of an event log, in order. -/
def callsOf : List Event → List Call
  | [] => []
  | .sys c :: es => c :: callsOf es
  | _ :: es => callsOf es

/-- Strings written to the error stream, in order. -/
def errorsOf : List Event → List String
  | [] => []
  | .cerr_str s :: es => s :: errorsOf es
  | _ :: es => errorsOf es

/-- Events that write to the standard output stream, in order. -/
def outputOf : List Event → List Event
  | [] => []
  | .cout_str s :: es => .cout_str s :: outputOf es
  | .cout_int n :: es => .cout_int n :: outputOf es
  | _ :: es => outputOf es

/-- Addresses of objects. -/
abbrev Ptr := Nat

/-- Program-wide state outside the server object: the static pointer `globalServer`
(`none` is `nullptr`) and the log of observable events, oldest first. -/
structure World where
  globalServer : Option Ptr
  events : List Event
  deriving DecidableEq, Repr

/-- Initial world: `globalServer = nullptr`, nothing observed yet. -/
def World.init : World := ⟨none, []⟩

/-- Append one event to the log. -/
def World.emit (w : World) (e : Event) : World := ⟨w.globalServer, w.events ++ [e]⟩

/-- Results returned by the socket API calls issued by `run`.  `socket_ret` is the value as
stored into the `int` member `server_socket`. -/
structure SockResults where
  socket_ret : Int
  setsockopt_ret : Int
  bind_ret : Int
  listen_ret : Int
  deriving DecidableEq, Repr

/-! ## The server object -/

/-- Data members of `class RedisServer`. -/
structure RedisServer where
  port : Int
  server_socket : Int
  running : Bool
  deriving DecidableEq, Repr

/-- `RedisServer::RedisServer(int port)`, RedisServer.cpp lines 10-12. -/
def RedisServer.ctor (this : Ptr) (port : Int) (w : World) : RedisServer × World :=
  (⟨port, -1, true⟩, ⟨some this, w.events⟩)

/-- `RedisServer::shutdown()`, RedisServer.cpp lines 15-21. -/
def RedisServer.shutdown (self : RedisServer) (w : World) : RedisServer × World :=
  let self1 : RedisServer := ⟨self.port, self.server_socket, false⟩
  let w1 : World :=
    if self1.server_socket ≠ 1 then w.emit (.sys (.closesocket self1.server_socket)) else w
  (self1, w1.emit (.cout_str "Server shutdown complete!\n"))

/-- `RedisServer::run()`, RedisServer.cpp lines 23-49. -/
def RedisServer.run (self : RedisServer) (r : SockResults) (w : World) : RedisServer × World :=
  let w1 := w.emit (.sys (.socket AF_INET SOCK_STREAM 0))
  let self1 : RedisServer := ⟨self.port, r.socket_ret, self.running⟩
  if self1.server_socket < 0 then
    (self1, w1.emit (.cerr_str "Error creating server socket\n"))
  else
    let opt : Int := 1
    let w2 := w1.emit (.sys (.setsockopt self1.server_socket SOL_SOCKET SO_REUSEADDR opt 4))
    let sin_family := AF_INET
    let sin_port := htons (to_u_short self1.port)
    let s_addr := INADDR_ANY
    let w3 := w2.emit (.sys (.bind self1.server_socket sin_family sin_port s_addr 16))
    if r.bind_ret < 0 then
      (self1, w3.emit (.cerr_str "Error binding server socket\n"))
    else
      let w4 := w3.emit (.sys (.listen self1.server_socket 10))
      if r.listen_ret < 0 then
        (self1, w4.emit (.cerr_str "Error listening on server socket\n"))
      else
        let w5 := w4.emit (.cout_str "Redis server is listening on port: ")
        let w6 := w5.emit (.cout_int self1.port)
        (self1, w6.emit (.cout_str "\n"))

/-! ## `std::stoi` and `main` -/

deriving instance DecidableEq for Except

/-- The two exceptions `std::stoi` throws. -/
inductive StoiError
  | invalid_argument
  | out_of_range
  deriving DecidableEq, Repr

/-- C-locale `isspace`: space, `\t`, `\n`, `\v`, `\f`, `\r`. -/
def isspace (c : Char) : Bool := c.toNat = 32 || (9 ≤ c.toNat && c.toNat ≤ 13)

/-- Decimal digit test. -/
def isdigit (c : Char) : Bool := 48 ≤ c.toNat && c.toNat ≤ 57

/-- Longest prefix of decimal digits, accumulated base 10 onto `acc`; also returns how many
digits were consumed. -/
def scanDigits : List Char → Nat → Nat → Nat × Nat
  | [], acc, n => (acc, n)
  | c :: cs, acc, n =>
    if isdigit c then scanDigits cs (acc * 10 + (c.toNat - 48)) (n + 1) else (acc, n)

/-- `std::stoi(str)` with the default base 10: skip leading white space, accept one optional
sign, convert the longest run of digits; `invalid_argument` when there is no digit,
`out_of_range` when the value does not fit a 32-bit `int`. -/
def stoi (str : String) : Except StoiError Int :=
  let body := str.toList.dropWhile isspace
  let (neg, rest) :=
    match body with
    | c :: cs => if c.toNat = 45 then (true, cs) else if c.toNat = 43 then (false, cs) else (false, body)
    | [] => (false, body)
  let (mag, n) := scanDigits rest 0 0
  if n = 0 then .error .invalid_argument
  else
    let v : Int := if neg then -(mag : Int) else (mag : Int)
    if v < -2147483648 ∨ 2147483647 < v then .error .out_of_range else .ok v

/-- What `main` leaves behind when it returns: its exit status, the final value of the local
object `server`, and the world. -/
structure MainResult where
  status : Int
  server : RedisServer
  world : World
  deriving DecidableEq, Repr

/-- `main(argc, argv)`, main.cpp lines 4-11, with `argc = argv.length`.  `this` is the address
of the local object `server`.  An exception escaping from `std::stoi` ends the program before
the server is constructed. -/
def main (argv : List String) (this : Ptr) (w : World) : Except StoiError MainResult :=
  let port0 : Int := 6739
  let argc := argv.length
  let port : Except StoiError Int :=
    if 2 ≤ argc then stoi (argv.getD 1 "") else .ok port0
  match port with
  | .error e => .error e
  | .ok port =>
    let (server, w1) := RedisServer.ctor this port w
    .ok ⟨0, server, w1⟩

/-! ## Data Store (spec sections 3 and 4.1)

The repository contains no store: `RedisServer.cpp` and `main.cpp` are the whole program.
The definitions of this section follow the words of the specification. -/

/-- Modelled from the spec: the byte strings of section 3 (keys and string values), absent
from the repository. -/
abbrev Bytes := List UInt8

/-- Modelled from the spec: the value variants of an Entry (section 3), absent from the
repository: String, List, Hash or Set. -/
inductive Value
  | string (b : Bytes)
  | list (xs : List Bytes)
  | hash (fields : List (Bytes × Bytes))
  | set (xs : List Bytes)
  deriving DecidableEq, Repr

/-- Modelled from the spec: an Entry (section 3), absent from the repository: a value stored
under a key, with an optional expiry timestamp. -/
structure Entry where
  key : Bytes
  value : Value
  expiresAt : Option Nat
  deriving DecidableEq, Repr

/-- Modelled from the spec: the Store (section 3), absent from the repository: the mapping
from key to Entry, kept as a list with at most one entry of interest per key. -/
abbrev Store := List Entry

/-- Modelled from the spec: the expiry check of section 4.1, absent from the repository:
an entry is expired when `now >= expiresAt`. -/
def Entry.expired (e : Entry) (now : Nat) : Bool :=
  match e.expiresAt with
  | some t => decide (t ≤ now)
  | none => false

/-- Modelled from the spec: lazy eviction (section 4.1), absent from the repository: an
expired entry under `key` is physically removed before the operation proceeds. -/
def Store.evict (st : Store) (key : Bytes) (now : Nat) : Store :=
  st.filter fun e => !(decide (e.key = key) && e.expired now)

/-- Modelled from the spec: `get(key) -> value | absent` (section 4.1), absent from the
repository: absent if the key is missing or expired; expired entries are evicted on read. -/
def Store.get (st : Store) (key : Bytes) (now : Nat) : Option Value × Store :=
  let st1 := st.evict key now
  ((st1.find? fun e => decide (e.key = key)).map Entry.value, st1)

/-- Modelled from the spec: `set(key, value, ttl?) -> ok` (section 4.1), absent from the
repository: overwrites any prior value and type; sets `expiresAt` if `ttl` is given, else
clears it. -/
def Store.set (st : Store) (key : Bytes) (value : Value) (ttl : Option Nat) (now : Nat) :
    Store :=
  ⟨key, value, ttl.map fun d => now + d⟩ :: st.filter fun e => !decide (e.key = key)

/-! ## Reading the log -/

/-- Events appended to the log between two worlds. -/
def emitted (before after : World) : List Event := after.events.drop before.events.length

/-- Host-order ports of the `bind` calls in a log. -/
def boundPorts (log : List Event) : List Nat :=
  (callsOf log).filterMap fun c =>
    match c with
    | .bind _ _ sin_port _ _ => some (ntohs sin_port)
    | _ => none

/-- Integers inserted into `std::cout` in a log. -/
def announcedPorts : List Event → List Int
  | [] => []
  | .cout_int n :: es => n :: announcedPorts es
  | _ :: es => announcedPorts es

/-- The event log of a successful `run` on socket `s` with port `p`. -/
def successLog (s p : Int) : List Event :=
  [ .sys (.socket AF_INET SOCK_STREAM 0),
    .sys (.setsockopt s SOL_SOCKET SO_REUSEADDR 1 4),
    .sys (.bind s AF_INET (htons (to_u_short p)) INADDR_ANY 16),
    .sys (.listen s 10),
    .cout_str "Redis server is listening on port: ",
    .cout_int p,
    .cout_str "\n" ]

/-- A server constructed with port 6379 whose `run` obtained descriptor 1 from `socket` and
whose `bind` and `listen` succeeded. -/
def startedOnDescriptorOne : RedisServer × World :=
  let c := RedisServer.ctor 0 6379 World.init
  c.1.run ⟨1, 0, 0, 0⟩ c.2

/-! ## Decimal text of a port number -/

/-- Character of a decimal digit. -/
def digitChar (d : Nat) : Char := Char.ofNat (48 + d)

/-- Decimal digits of a natural number, most significant first. -/
def natChars (n : Nat) : List Char :=
  if n < 10 then [digitChar n] else natChars (n / 10) ++ [digitChar (n % 10)]
decreasing_by omega

/-- Decimal text of an integer: an optional minus sign followed by the digits. -/
def decimal (p : Int) : String :=
  if p < 0 then String.mk (Char.ofNat 45 :: natChars p.natAbs) else String.mk (natChars p.natAbs)

/-! ## Auxiliary lemmas -/

theorem emitted_append (w w1 : World) (l : List Event) (h : w1.events = w.events ++ l) :
    emitted w w1 = l := by
  simp [emitted, h]

theorem to_u_short_lt (p : Int) : to_u_short p < 65536 := by
  unfold to_u_short
  omega

theorem ntohs_htons (x : Nat) (h : x < 65536) : ntohs (htons x) = x := by
  unfold ntohs htons
  have h1 : (x % 256 * 256 + x / 256 % 256) % 256 = x / 256 := by omega
  have h2 : (x % 256 * 256 + x / 256 % 256) / 256 = x % 256 := by omega
  rw [h1, h2]
  omega

/-- The log of `run`, by the first call that fails. -/
theorem run_events (self : RedisServer) (r : SockResults) (w : World) :
    (self.run r w).2.events = w.events ++
      (if r.socket_ret < 0 then
        [.sys (.socket AF_INET SOCK_STREAM 0), .cerr_str "Error creating server socket\n"]
      else if r.bind_ret < 0 then
        [.sys (.socket AF_INET SOCK_STREAM 0),
         .sys (.setsockopt r.socket_ret SOL_SOCKET SO_REUSEADDR 1 4),
         .sys (.bind r.socket_ret AF_INET (htons (to_u_short self.port)) INADDR_ANY 16),
         .cerr_str "Error binding server socket\n"]
      else if r.listen_ret < 0 then
        [.sys (.socket AF_INET SOCK_STREAM 0),
         .sys (.setsockopt r.socket_ret SOL_SOCKET SO_REUSEADDR 1 4),
         .sys (.bind r.socket_ret AF_INET (htons (to_u_short self.port)) INADDR_ANY 16),
         .sys (.listen r.socket_ret 10),
         .cerr_str "Error listening on server socket\n"]
      else successLog r.socket_ret self.port) := by
  unfold RedisServer.run
  by_cases h1 : r.socket_ret < 0
  · simp [h1, World.emit]
  · by_cases h2 : r.bind_ret < 0
    · simp [h1, h2, World.emit]
    · by_cases h3 : r.listen_ret < 0
      · simp [h1, h2, h3, World.emit]
      · simp [h1, h2, h3, World.emit, successLog]

/-- The object state after `run`: only `server_socket` is written. -/
theorem run_state (self : RedisServer) (r : SockResults) (w : World) :
    (self.run r w).1 = ⟨self.port, r.socket_ret, self.running⟩ := by
  unfold RedisServer.run
  by_cases h1 : r.socket_ret < 0
  · simp [h1]
  · by_cases h2 : r.bind_ret < 0
    · simp [h1, h2]
    · by_cases h3 : r.listen_ret < 0 <;> simp [h1, h2, h3]

theorem run_globalServer (self : RedisServer) (r : SockResults) (w : World) :
    (self.run r w).2.globalServer = w.globalServer := by
  unfold RedisServer.run
  by_cases h1 : r.socket_ret < 0
  · simp [h1, World.emit]
  · by_cases h2 : r.bind_ret < 0
    · simp [h1, h2, World.emit]
    · by_cases h3 : r.listen_ret < 0 <;> simp [h1, h2, h3, World.emit]

theorem shutdown_events (self : RedisServer) (w : World) :
    (self.shutdown w).2.events = w.events ++
      (if self.server_socket = 1 then [.cout_str "Server shutdown complete!\n"]
       else [.sys (.closesocket self.server_socket), .cout_str "Server shutdown complete!\n"]) := by
  unfold RedisServer.shutdown
  by_cases h : self.server_socket = 1 <;> simp [h, World.emit]

theorem shutdown_state (self : RedisServer) (w : World) :
    (self.shutdown w).1 = ⟨self.port, self.server_socket, false⟩ := by
  simp [RedisServer.shutdown]

theorem shutdown_globalServer (self : RedisServer) (w : World) :
    (self.shutdown w).2.globalServer = w.globalServer := by
  unfold RedisServer.shutdown
  by_cases h : self.server_socket = 1 <;> simp [h, World.emit]

theorem run_emitted (self : RedisServer) (r : SockResults) (w : World) :
    emitted w (self.run r w).2 =
      (if r.socket_ret < 0 then
        [.sys (.socket AF_INET SOCK_STREAM 0), .cerr_str "Error creating server socket\n"]
      else if r.bind_ret < 0 then
        [.sys (.socket AF_INET SOCK_STREAM 0),
         .sys (.setsockopt r.socket_ret SOL_SOCKET SO_REUSEADDR 1 4),
         .sys (.bind r.socket_ret AF_INET (htons (to_u_short self.port)) INADDR_ANY 16),
         .cerr_str "Error binding server socket\n"]
      else if r.listen_ret < 0 then
        [.sys (.socket AF_INET SOCK_STREAM 0),
         .sys (.setsockopt r.socket_ret SOL_SOCKET SO_REUSEADDR 1 4),
         .sys (.bind r.socket_ret AF_INET (htons (to_u_short self.port)) INADDR_ANY 16),
         .sys (.listen r.socket_ret 10),
         .cerr_str "Error listening on server socket\n"]
      else successLog r.socket_ret self.port) :=
  emitted_append w _ _ (run_events self r w)

theorem run_emitted_success (self : RedisServer) (r : SockResults) (w : World)
    (hs : 0 ≤ r.socket_ret) (hb : 0 ≤ r.bind_ret) (hl : 0 ≤ r.listen_ret) :
    emitted w (self.run r w).2 = successLog r.socket_ret self.port := by
  rw [run_emitted]
  simp [not_lt.mpr hs, not_lt.mpr hb, not_lt.mpr hl]

theorem shutdown_emitted (self : RedisServer) (w : World) :
    emitted w (self.shutdown w).2 =
      (if self.server_socket = 1 then [.cout_str "Server shutdown complete!\n"]
       else [.sys (.closesocket self.server_socket), .cout_str "Server shutdown complete!\n"]) :=
  emitted_append w _ _ (shutdown_events self w)

/-! ## `RedisServer::run` -/

/-- C1: a server constructed with port `p`, whose `socket`, `bind` and `listen` calls all
succeed, performs exactly the calls `socket`, `setsockopt`, `bind`, `listen` in that order;
the single `bind` is on the created socket with family `AF_INET`, address `INADDR_ANY` and
port field `htons(p)` (after the conversion of `p` to `u_short`), the single `listen` is on
the same socket, and the text written to the output stream announces port `p`. -/
theorem run_binds_configured_port (p : Int) (this : Ptr) (w0 : World) (r : SockResults)
    (hs : 0 ≤ r.socket_ret) (hb : 0 ≤ r.bind_ret) (hl : 0 ≤ r.listen_ret) :
    (let c := RedisServer.ctor this p w0
     let res := c.1.run r c.2
     let log := emitted c.2 res.2
     res.1.server_socket = r.socket_ret ∧
     callsOf log =
       [.socket AF_INET SOCK_STREAM 0,
        .setsockopt r.socket_ret SOL_SOCKET SO_REUSEADDR 1 4,
        .bind r.socket_ret AF_INET (htons (to_u_short p)) INADDR_ANY 16,
        .listen r.socket_ret 10] ∧
     (callsOf log).filter (fun c => c.kind = .bind) =
       [.bind r.socket_ret AF_INET (htons (to_u_short p)) INADDR_ANY 16] ∧
     (callsOf log).filter (fun c => c.kind = .listen) = [.listen r.socket_ret 10] ∧
     outputOf log =
       [.cout_str "Redis server is listening on port: ", .cout_int p, .cout_str "\n"] ∧
     errorsOf log = []) := by
  intro c res log
  have hlog : log = successLog r.socket_ret p :=
    run_emitted_success c.1 r c.2 hs hb hl
  have hst : res.1 = ⟨p, r.socket_ret, true⟩ := run_state c.1 r c.2
  rw [hlog, hst]
  simp [successLog, callsOf, outputOf, errorsOf, Call.kind]

/-- Witness for C1: port 6379, socket descriptor 3, every call succeeding. -/
theorem run_binds_configured_port_witness :
    callsOf (emitted (RedisServer.ctor 0 6379 World.init).2
      ((RedisServer.ctor 0 6379 World.init).1.run ⟨3, 0, 0, 0⟩
        (RedisServer.ctor 0 6379 World.init).2).2) =
      [.socket AF_INET SOCK_STREAM 0,
       .setsockopt 3 SOL_SOCKET SO_REUSEADDR 1 4,
       .bind 3 AF_INET (htons (to_u_short 6379)) INADDR_ANY 16,
       .listen 3 10] :=
  (run_binds_configured_port 6379 0 World.init ⟨3, 0, 0, 0⟩
    (by decide) (by decide) (by decide)).2.1

/-- C2: whenever socket creation, `bind` or `listen` returns a negative result, `run` writes
exactly one message to the error stream, the message names the step that failed, the failing
call is the last socket call of the log (the error message is the only event after it) and
nothing is written to the output stream; and, for every outcome, the announcement appears in
the log exactly when all three calls succeeded. -/
theorem run_failure_reported (self : RedisServer) (r : SockResults) (w : World) :
    (let log := emitted w (self.run r w).2
     ((r.socket_ret < 0 ∨ r.bind_ret < 0 ∨ r.listen_ret < 0) →
       (errorsOf log).length = 1 ∧ outputOf log = [] ∧
       ∃ (before : List Call) (failing : Call) (msg : String),
         log = before.map Event.sys ++ [.sys failing, .cerr_str msg] ∧
         ((failing.kind = .socket ∧ msg = "Error creating server socket\n" ∧
             r.socket_ret < 0) ∨
          (failing.kind = .bind ∧ msg = "Error binding server socket\n" ∧
             0 ≤ r.socket_ret ∧ r.bind_ret < 0) ∨
          (failing.kind = .listen ∧ msg = "Error listening on server socket\n" ∧
             0 ≤ r.socket_ret ∧ 0 ≤ r.bind_ret ∧ r.listen_ret < 0))) ∧
     (Event.cout_str "Redis server is listening on port: " ∈ log ↔
       (0 ≤ r.socket_ret ∧ 0 ≤ r.bind_ret ∧ 0 ≤ r.listen_ret))) := by
  intro log
  have hlog := run_emitted self r w
  by_cases h1 : r.socket_ret < 0
  · have hl : log = [.sys (.socket AF_INET SOCK_STREAM 0),
        .cerr_str "Error creating server socket\n"] := by
      exact hlog.trans (by simp [h1])
    rw [hl]
    refine ⟨fun _ => ⟨by simp [errorsOf], by simp [outputOf], [], _, _, rfl, ?_⟩, ?_⟩
    · exact Or.inl ⟨rfl, rfl, h1⟩
    · simp; intros; omega
  · by_cases h2 : r.bind_ret < 0
    · have hl : log = [.sys (.socket AF_INET SOCK_STREAM 0),
          .sys (.setsockopt r.socket_ret SOL_SOCKET SO_REUSEADDR 1 4),
          .sys (.bind r.socket_ret AF_INET (htons (to_u_short self.port)) INADDR_ANY 16),
          .cerr_str "Error binding server socket\n"] := by
        exact hlog.trans (by simp [h1, h2])
      rw [hl]
      refine ⟨fun _ => ⟨by simp [errorsOf], by simp [outputOf],
        [.socket AF_INET SOCK_STREAM 0,
          .setsockopt r.socket_ret SOL_SOCKET SO_REUSEADDR 1 4], _, _, rfl, ?_⟩, ?_⟩
      · exact Or.inr (Or.inl ⟨rfl, rfl, not_lt.mp h1, h2⟩)
      · simp; intros; omega
    · by_cases h3 : r.listen_ret < 0
      · have hl : log = [.sys (.socket AF_INET SOCK_STREAM 0),
            .sys (.setsockopt r.socket_ret SOL_SOCKET SO_REUSEADDR 1 4),
            .sys (.bind r.socket_ret AF_INET (htons (to_u_short self.port)) INADDR_ANY 16),
            .sys (.listen r.socket_ret 10),
            .cerr_str "Error listening on server socket\n"] := by
          exact hlog.trans (by simp [h1, h2, h3])
        rw [hl]
        refine ⟨fun _ => ⟨by simp [errorsOf], by simp [outputOf],
          [.socket AF_INET SOCK_STREAM 0,
            .setsockopt r.socket_ret SOL_SOCKET SO_REUSEADDR 1 4,
            .bind r.socket_ret AF_INET (htons (to_u_short self.port)) INADDR_ANY 16],
          _, _, rfl, ?_⟩, ?_⟩
        · exact Or.inr (Or.inr ⟨rfl, rfl, not_lt.mp h1, not_lt.mp h2, h3⟩)
        · simp; intros; omega
      · have hl : log = successLog r.socket_ret self.port := by
          exact hlog.trans (by simp [h1, h2, h3])
        rw [hl]
        refine ⟨fun h => ?_, ?_⟩
        · omega
        · simp [successLog]; omega

/-- Witness for C2: the socket is created as descriptor 3 and `bind` returns -1. -/
theorem run_failure_reported_witness :
    errorsOf (emitted World.init
      ((⟨6379, -1, true⟩ : RedisServer).run ⟨3, 0, -1, 0⟩ World.init).2) =
      ["Error binding server socket\n"] ∧
    (errorsOf (emitted World.init
      ((⟨6379, -1, true⟩ : RedisServer).run ⟨3, 0, -1, 0⟩ World.init).2)).length = 1 :=
  ⟨by decide,
   ((run_failure_reported ⟨6379, -1, true⟩ ⟨3, 0, -1, 0⟩ World.init).1
      (by decide)).1⟩

/-- C6: for every server state and every outcome of the socket calls, the kinds of the calls
performed by `run` form an initial segment of `socket, setsockopt, bind, listen`, none of
them is `accept`, `recv` or `send`; `run` writes no state other than `server_socket` (the
members `port` and `running` and the static pointer keep their values), and what it does is
determined by `port` and the call results alone: the initial `server_socket`, the flag
`running`, and the static pointer are not read. -/
theorem run_never_accepts (self : RedisServer) (r : SockResults) (w : World)
    (s0 : Int) (b0 : Bool) (g0 : Option Ptr) :
    (let res := self.run r w
     let log := emitted w res.2
     (callsOf log).map Call.kind <+: [.socket, .setsockopt, .bind, .listen] ∧
     (∀ c ∈ callsOf log, c.kind ≠ .accept ∧ c.kind ≠ .recv ∧ c.kind ≠ .send) ∧
     res.1.port = self.port ∧ res.1.running = self.running ∧
     res.2.globalServer = w.globalServer ∧
     res.1.server_socket = r.socket_ret ∧
     emitted ⟨g0, w.events⟩ ((⟨self.port, s0, b0⟩ : RedisServer).run r ⟨g0, w.events⟩).2 = log ∧
     ((⟨self.port, s0, b0⟩ : RedisServer).run r ⟨g0, w.events⟩).1.server_socket =
       res.1.server_socket) := by
  intro res log
  have hst : res.1 = ⟨self.port, r.socket_ret, self.running⟩ := run_state self r w
  have hg : res.2.globalServer = w.globalServer := run_globalServer self r w
  have hlog : log = _ := run_emitted self r w
  have hlog0 := run_emitted ⟨self.port, s0, b0⟩ r ⟨g0, w.events⟩
  have hst0 := run_state ⟨self.port, s0, b0⟩ r ⟨g0, w.events⟩
  refine ⟨?_, ?_, by rw [hst], by rw [hst], hg, by rw [hst], ?_, by rw [hst0, hst]⟩
  · rw [hlog]
    by_cases h1 : r.socket_ret < 0
    · simp only [h1, if_true, callsOf, List.map]
      exact ⟨[.setsockopt, .bind, .listen], rfl⟩
    · by_cases h2 : r.bind_ret < 0
      · simp only [h1, h2, if_true, if_false, callsOf, List.map, Call.kind]
        exact ⟨[.listen], rfl⟩
      · by_cases h3 : r.listen_ret < 0
        · simp only [h1, h2, h3, if_true, if_false, callsOf, List.map, Call.kind]
          exact ⟨[], rfl⟩
        · simp only [h1, h2, h3, if_false, successLog, callsOf, List.map, Call.kind]
          exact ⟨[], rfl⟩
  · rw [hlog]
    by_cases h1 : r.socket_ret < 0
    · simp [h1, callsOf, Call.kind]
    · by_cases h2 : r.bind_ret < 0
      · simp [h1, h2, callsOf, Call.kind]
      · by_cases h3 : r.listen_ret < 0
        · simp [h1, h2, h3, callsOf, Call.kind]
        · simp [h1, h2, h3, successLog, callsOf, Call.kind]
  · rw [hlog0, hlog]

/-! ## `RedisServer::shutdown` -/

/-- C10: for every server state, `shutdown` keeps `port` and `server_socket`, sets `running`
to false and leaves the static pointer alone; a second `shutdown` ends in the same object
state as the first and, `server_socket` not having been reset, logs the same events as the
first one, in particular the same `closesocket` call (none at all when `server_socket` is 1,
`closesocket(server_socket)` otherwise). -/
theorem shutdown_changes_only_running (self : RedisServer) (w : World) :
    (let r1 := self.shutdown w
     let r2 := r1.1.shutdown r1.2
     r1.1.port = self.port ∧ r1.1.server_socket = self.server_socket ∧
     r1.1.running = false ∧ r1.2.globalServer = w.globalServer ∧
     r2.1 = r1.1 ∧ r2.2.globalServer = w.globalServer ∧
     emitted r1.2 r2.2 = emitted w r1.2 ∧
     callsOf (emitted r1.2 r2.2) = callsOf (emitted w r1.2) ∧
     callsOf (emitted w r1.2) =
       (if self.server_socket = 1 then [] else [.closesocket self.server_socket])) := by
  intro r1 r2
  have hst1 : r1.1 = ⟨self.port, self.server_socket, false⟩ := shutdown_state self w
  have hst2 : r2.1 = ⟨r1.1.port, r1.1.server_socket, false⟩ := shutdown_state r1.1 r1.2
  have hg1 : r1.2.globalServer = w.globalServer := shutdown_globalServer self w
  have hg2 : r2.2.globalServer = r1.2.globalServer := shutdown_globalServer r1.1 r1.2
  have he1 : emitted w r1.2 = _ := shutdown_emitted self w
  have he2 : emitted r1.2 r2.2 = _ := shutdown_emitted r1.1 r1.2
  have he : emitted r1.2 r2.2 = emitted w r1.2 := by
    rw [he1, he2, hst1]
  refine ⟨by rw [hst1], by rw [hst1], by rw [hst1], hg1, by rw [hst2, hst1],
    by rw [hg2, hg1], he, by rw [he], ?_⟩
  rw [he1]
  by_cases h : self.server_socket = 1 <;> simp [h, callsOf]

/-- C3 (behaviour of the code at descriptor 1): a server whose `socket` call returned the
descriptor 1 and whose `bind` and `listen` succeeded holds the open descriptor 1 in
`server_socket`; `shutdown` then sets `running` to false but issues no `closesocket` call:
the guard compares `server_socket` with 1, not with the sentinel -1. -/
theorem shutdown_leaves_descriptor_one_open :
    startedOnDescriptorOne.1.server_socket = 1 ∧
    (startedOnDescriptorOne.1.shutdown startedOnDescriptorOne.2).1.running = false ∧
    callsOf (emitted startedOnDescriptorOne.2
      (startedOnDescriptorOne.1.shutdown startedOnDescriptorOne.2).2) = [] ∧
    emitted startedOnDescriptorOne.2
      (startedOnDescriptorOne.1.shutdown startedOnDescriptorOne.2).2 =
      [.cout_str "Server shutdown complete!\n"] := by
  decide

/-- C8 (behaviour of the code on a fresh server): for every port `p`, `shutdown` on a freshly
constructed server, whose `server_socket` is the sentinel -1, sets `running` to false and
issues the call `closesocket(-1)`. -/
theorem shutdown_fresh_server_closes_sentinel (p : Int) (this : Ptr) (w : World) :
    (let c := RedisServer.ctor this p w
     let stopped := c.1.shutdown c.2
     c.1.server_socket = -1 ∧
     stopped.1.running = false ∧
     callsOf (emitted c.2 stopped.2) = [.closesocket (-1)]) := by
  intro c stopped
  have he : emitted c.2 stopped.2 = _ := shutdown_emitted c.1 c.2
  have hs : stopped.1 = ⟨c.1.port, c.1.server_socket, false⟩ := shutdown_state c.1 c.2
  have hc : c.1.server_socket = -1 := rfl
  refine ⟨hc, by rw [hs], ?_⟩
  rw [he, hc]
  simp [callsOf]

/-! ## `main` -/

theorem main_without_argument (argv : List String) (this : Ptr) (w : World)
    (h : argv.length < 2) :
    main argv this w = .ok ⟨0, ⟨6739, -1, true⟩, ⟨some this, w.events⟩⟩ := by
  have h2 : ¬ 2 ≤ argv.length := by omega
  simp [main, h2, RedisServer.ctor]

theorem main_with_argument (argv : List String) (this : Ptr) (w : World) (p : Int)
    (h : 2 ≤ argv.length) (hp : stoi (argv.getD 1 "") = .ok p) :
    main argv this w = .ok ⟨0, ⟨p, -1, true⟩, ⟨some this, w.events⟩⟩ := by
  unfold main
  simp only [h, if_true]
  rw [hp]
  rfl

theorem main_events (argv : List String) (this : Ptr) (w : World) (res : MainResult)
    (h : main argv this w = .ok res) :
    res.world.events = w.events ∧ res.server.server_socket = -1 := by
  unfold main at h
  by_cases h2 : 2 ≤ argv.length
  · simp only [h2, if_true] at h
    cases hs : stoi (argv.getD 1 "") with
    | error e => rw [hs] at h; simp at h
    | ok p =>
      rw [hs] at h
      simp [RedisServer.ctor] at h
      subst h
      exact ⟨rfl, rfl⟩
  · simp only [h2, if_false] at h
    simp [RedisServer.ctor] at h
    subst h
    exact ⟨rfl, rfl⟩

/-- C5 (behaviour of the code without a port argument): when `main` is started with no
argument after the program name, or with an empty argument vector, the server is
constructed with port 6739. -/
theorem main_default_port_is_6739 (prog : String) (this : Ptr) (w : World) :
    main [prog] this w = .ok ⟨0, ⟨6739, -1, true⟩, ⟨some this, w.events⟩⟩ ∧
    main [] this w = .ok ⟨0, ⟨6739, -1, true⟩, ⟨some this, w.events⟩⟩ :=
  ⟨main_without_argument [prog] this w (by simp),
   main_without_argument [] this w (by simp)⟩

/-- C4 (behaviour of the code): whenever `main` returns, it has appended no event to the
log, so it has performed no socket call at all, and the server it constructed still holds
the sentinel -1 in `server_socket`: `run` is never invoked. -/
theorem main_performs_no_socket_call (argv : List String) (this : Ptr) (w : World)
    (res : MainResult) (h : main argv this w = .ok res) :
    emitted w res.world = [] ∧ callsOf (emitted w res.world) = [] ∧
    res.server.server_socket = -1 := by
  have he := main_events argv this w res h
  have h0 : emitted w res.world = [] := by simp [emitted, he.1]
  exact ⟨h0, by rw [h0]; rfl, he.2⟩

/-- Witness for C4: the program started as `redis-server 6379`. -/
theorem main_performs_no_socket_call_witness :
    main ["redis-server", "6379"] 0 World.init = .ok ⟨0, ⟨6379, -1, true⟩, ⟨some 0, []⟩⟩ ∧
    callsOf (emitted World.init
      (⟨0, ⟨6379, -1, true⟩, ⟨some 0, []⟩⟩ : MainResult).world) = [] :=
  ⟨by decide,
   (main_performs_no_socket_call ["redis-server", "6379"] 0 World.init
      ⟨0, ⟨6379, -1, true⟩, ⟨some 0, []⟩⟩ (by decide)).2.1⟩

/-! ## Parsing the decimal text of a 32-bit integer -/

theorem digitChar_toNat (d : Nat) (h : d < 10) : (digitChar d).toNat = 48 + d := by
  unfold digitChar
  interval_cases d <;> rfl

theorem isdigit_digitChar (d : Nat) (h : d < 10) : isdigit (digitChar d) = true := by
  simp [isdigit, digitChar_toNat d h]
  omega

theorem isspace_digitChar (d : Nat) (h : d < 10) : isspace (digitChar d) = false := by
  simp [isspace, digitChar_toNat d h]
  omega

theorem scanDigits_digitChar (d : Nat) (h : d < 10) (rest : List Char) (acc k : Nat) :
    scanDigits (digitChar d :: rest) acc k = scanDigits rest (acc * 10 + d) (k + 1) := by
  simp [scanDigits, isdigit_digitChar d h, digitChar_toNat d h]

theorem scanDigits_natChars (n : Nat) :
    ∀ (rest : List Char) (acc k : Nat),
      scanDigits (natChars n ++ rest) acc k =
        scanDigits rest (acc * 10 ^ (natChars n).length + n) (k + (natChars n).length) := by
  induction n using Nat.strong_induction_on with
  | _ n ih =>
    intro rest acc k
    rw [natChars]
    by_cases h : n < 10
    · simp only [h, if_true, List.singleton_append, List.length_singleton, pow_one]
      exact scanDigits_digitChar n h rest acc k
    · simp only [h, if_false, List.append_assoc, List.singleton_append, List.length_append,
        List.length_singleton]
      rw [ih (n / 10) (by omega), scanDigits_digitChar (n % 10) (by omega)]
      have e : (acc * 10 ^ (natChars (n / 10)).length + n / 10) * 10 + n % 10 =
          acc * 10 ^ ((natChars (n / 10)).length + 1) + n := by
        rw [pow_succ, Nat.add_mul, Nat.mul_assoc]
        omega
      rw [e, Nat.add_assoc]

theorem natChars_head (n : Nat) : ∃ d cs, d < 10 ∧ natChars n = digitChar d :: cs := by
  induction n using Nat.strong_induction_on with
  | _ n ih =>
    rw [natChars]
    by_cases h : n < 10
    · exact ⟨n, [], h, by simp [h]⟩
    · obtain ⟨d, cs, hd, hc⟩ := ih (n / 10) (by omega)
      exact ⟨d, cs ++ [digitChar (n % 10)], hd, by simp [h, hc]⟩

theorem scanDigits_natChars_all (n : Nat) :
    scanDigits (natChars n) 0 0 = (n, (natChars n).length) := by
  have h := scanDigits_natChars n [] 0 0
  simpa [scanDigits] using h

theorem stoi_decimal (p : Int) (hlo : -2147483648 ≤ p) (hhi : p ≤ 2147483647) :
    stoi (decimal p) = .ok p := by
  obtain ⟨d, cs, hd, hc⟩ := natChars_head p.natAbs
  have hscan := scanDigits_natChars_all p.natAbs
  have hlen : (natChars p.natAbs).length ≠ 0 := by rw [hc]; simp
  have hsp := isspace_digitChar d hd
  have hdn := digitChar_toNat d hd
  by_cases hneg : p < 0
  · have hbody : (decimal p).toList.dropWhile isspace =
        Char.ofNat 45 :: natChars p.natAbs := by
      simp only [decimal, hneg, if_true]
      rfl
    unfold stoi
    simp only [hbody]
    have h45 : (Char.ofNat 45).toNat = 45 := rfl
    simp only [h45, if_true, hscan, hlen, if_false]
    have hv : -((p.natAbs : Nat) : Int) = p := by omega
    rw [hv]
    have hr : ¬ (p < -2147483648 ∨ 2147483647 < p) := by omega
    simp [hr]
  · have hbody : (decimal p).toList.dropWhile isspace = natChars p.natAbs := by
      simp only [decimal, hneg, if_false]
      show (natChars p.natAbs).dropWhile isspace = _
      rw [hc, List.dropWhile_cons]
      simp [hsp]
    unfold stoi
    simp only [hbody]
    rw [hc]
    have h1 : ¬ (digitChar d).toNat = 45 := by omega
    have h2 : ¬ (digitChar d).toNat = 43 := by omega
    simp only [h1, h2, if_false]
    rw [← hc]
    simp only [hscan, hlen, if_false]
    have hv : ((p.natAbs : Nat) : Int) = p := by omega
    rw [hv]
    have hr : ¬ (p < -2147483648 ∨ 2147483647 < p) := by omega
    simp [hr]

/-! ## Announced port and bound port -/

/-- C9: for every integer `p`, a server constructed with `p` keeps `p` unchanged; when its
`socket`, `bind` and `listen` calls succeed, the one `bind` carries the port field
`htons(p mod 65536)`, that is, the port bound is `p mod 65536`, while the one integer
written to the output stream is `p` itself; so the announced port equals the bound port
exactly when `0 <= p <= 65535`.  Nothing rejects a `p` outside that range: `run` reaches
`listen` and the announcement for every `p`, `main` constructs the server with whatever
value `std::stoi` returns for its first argument, and every 32-bit `p` is the value of
some argument (its decimal text). -/
theorem announced_port_equals_bound_port_iff (p : Int) (this : Ptr) (w0 : World)
    (r : SockResults) (hs : 0 ≤ r.socket_ret) (hb : 0 ≤ r.bind_ret) (hl : 0 ≤ r.listen_ret) :
    (let c := RedisServer.ctor this p w0
     let log := emitted c.2 (c.1.run r c.2).2
     c.1.port = p ∧
     (callsOf log).filter (fun c => c.kind = .bind) =
       [.bind r.socket_ret AF_INET (htons ((p % 65536).toNat)) INADDR_ANY 16] ∧
     boundPorts log = [(p % 65536).toNat] ∧
     announcedPorts log = [p] ∧
     (announcedPorts log = (boundPorts log).map Int.ofNat ↔ (0 ≤ p ∧ p ≤ 65535)) ∧
     (callsOf log).map Call.kind = [.socket, .setsockopt, .bind, .listen] ∧
     (∀ argv : List String, 2 ≤ argv.length → stoi (argv.getD 1 "") = .ok p →
       main argv this w0 = .ok ⟨0, c.1, c.2⟩) ∧
     (-2147483648 ≤ p → p ≤ 2147483647 →
       main ["redis-server", decimal p] this w0 = .ok ⟨0, c.1, c.2⟩)) := by
  intro c log
  have hlog : log = successLog r.socket_ret p :=
    run_emitted_success c.1 r c.2 hs hb hl
  have hbound : boundPorts (successLog r.socket_ret p) = [(p % 65536).toNat] := by
    simp only [boundPorts, successLog, callsOf, List.filterMap_cons, List.filterMap_nil]
    rw [ntohs_htons _ (to_u_short_lt p)]
    rfl
  have hann : announcedPorts (successLog r.socket_ret p) = [p] := by
    simp [announcedPorts, successLog]
  rw [hlog, hbound, hann]
  refine ⟨rfl, by simp [successLog, callsOf, Call.kind, to_u_short], rfl, rfl, ?_,
    by simp [successLog, callsOf, Call.kind], ?_, ?_⟩
  · simp only [List.map_cons, List.map_nil, List.cons.injEq, and_true]
    constructor
    · intro h
      have : Int.ofNat (p % 65536).toNat = p % 65536 := by
        show ((p % 65536).toNat : Int) = _
        omega
      rw [this] at h
      omega
    · intro h
      show p = ((p % 65536).toNat : Int)
      omega
  · intro argv h2 hp
    exact main_with_argument argv this w0 p h2 hp
  · intro hlo hhi
    exact main_with_argument _ this w0 p (by simp) (stoi_decimal p hlo hhi)

/-- Witness for C9: port 70000 on descriptor 3 is bound as 4464 and announced as 70000. -/
theorem announced_port_equals_bound_port_iff_witness :
    boundPorts (emitted (RedisServer.ctor 0 70000 World.init).2
      ((RedisServer.ctor 0 70000 World.init).1.run ⟨3, 0, 0, 0⟩
        (RedisServer.ctor 0 70000 World.init).2).2) = [4464] ∧
    announcedPorts (emitted (RedisServer.ctor 0 70000 World.init).2
      ((RedisServer.ctor 0 70000 World.init).1.run ⟨3, 0, 0, 0⟩
        (RedisServer.ctor 0 70000 World.init).2).2) = [70000] :=
  ⟨(announced_port_equals_bound_port_iff 70000 0 World.init ⟨3, 0, 0, 0⟩
      (by decide) (by decide) (by decide)).2.2.1,
   (announced_port_equals_bound_port_iff 70000 0 World.init ⟨3, 0, 0, 0⟩
      (by decide) (by decide) (by decide)).2.2.2.1⟩

/-! ## Data Store round trip -/

/-- C7: for every store, key `k` and value `v`, `SET k v` (no ttl) at any time followed by
`GET k` at any time returns `v`. -/
theorem set_get_round_trip (st : Store) (k v : Bytes) (t1 t2 : Nat) :
    ((st.set k (.string v) none t1).get k t2).1 = some (.string v) := by
  simp [Store.get, Store.set, Store.evict, Entry.expired, List.filter_cons, List.find?_cons]

end Redis
